import Mathlib

/-!
Verification of the Tool Router of the Firecrawl agent
(`MCP_Tool/claude_test.py` and `MCP_Tool/firecrawl_fapi.py`).

The development shallowly embeds the tool-selection, parameter-extraction
and validation logic: Python regular expressions used by the catalog are
embedded as a small regex AST with a backtracking matcher (`re.search`
semantics), and the targeted extraction regexes are embedded as dedicated
scanners that reproduce Python's leftmost-match-with-backtracking behaviour
for those concrete patterns.  Strings are handled as `List Char`; Python's
`str.lower` is character-wise lowering (the inputs of interest are ASCII).
-/

namespace Firecrawl

/-- ASCII whitespace, the characters matched by Python's regex class `\s`
on the ASCII range. -/
def isWsChar (c : Char) : Bool :=
  c = ' ' || c = '\t' || c = '\n' || c = '\x0d' || c = Char.ofNat 11 || c = Char.ofNat 12

/-- ASCII digit, Python's regex class `\d` on the ASCII range. -/
def isDigitChar (c : Char) : Bool :=
  '0' ≤ c && c ≤ '9'

/-- ASCII word character, Python's regex class `\w` on the ASCII range
(used for the word-boundary assertion `\b`). -/
def isWordChar (c : Char) : Bool :=
  c.isAlphanum || c = '_'

/-- Numeric value of a digit run, Python's `int()` on a digit string. -/
def natOfDigits (ds : List Char) : Nat :=
  ds.foldl (fun a c => a * 10 + (c.toNat - 48)) 0

/-- Python `str.lower()`, character-wise (the inputs of interest are
ASCII, where Python's and Lean's per-character lowering agree). -/
def pyLower (s : String) : List Char :=
  s.data.map Char.toLower

/-- Regex abstract syntax: the fragment used by the agent's pattern catalog
(literal characters, character classes, concatenation, alternation, Kleene
star; `+` and `?` are derived). -/
inductive RE where
  | eps : RE
  | ch (c : Char) : RE
  | cls (f : Char → Bool) : RE
  | seq (a b : RE) : RE
  | alt (a b : RE) : RE
  | star (a : RE) : RE

/-- Nondeterministic regex matcher: all suffixes remaining after matching
`r` against a prefix of `s`.  `fuel` bounds the recursion depth; every use
supplies fuel that is ample for the pattern and input at hand.  Star skips
empty-progress iterations, which preserves the matched language. -/
def matchF : Nat → RE → List Char → List (List Char)
  | 0, _, _ => []
  | _ + 1, RE.eps, s => [s]
  | _ + 1, RE.ch _, [] => []
  | _ + 1, RE.ch c, d :: s => if d = c then [s] else []
  | _ + 1, RE.cls _, [] => []
  | _ + 1, RE.cls f, d :: s => if f d then [s] else []
  | fuel + 1, RE.seq a b, s => (matchF fuel a s).flatMap (matchF fuel b)
  | fuel + 1, RE.alt a b, s => matchF fuel a s ++ matchF fuel b s
  | fuel + 1, RE.star a, s =>
      s :: ((matchF fuel a s).filter (fun t => t.length < s.length)).flatMap
        (matchF fuel (RE.star a))

/-- Fuel that is ample for every catalog pattern on the given input. -/
def reFuel (s : List Char) : Nat := 8 * s.length + 1000

/-- Python `re.search`: does the pattern match starting at some position? -/
def reSearch (r : RE) (s : List Char) : Bool :=
  s.tails.any (fun t => !(matchF (reFuel s) r t).isEmpty)

/-- Literal string pattern. -/
def lit (s : String) : RE :=
  s.data.foldr (fun c r => RE.seq (RE.ch c) r) RE.eps

/-- Concatenation of a list of patterns. -/
def reCat : List RE → RE
  | [] => RE.eps
  | [r] => r
  | r :: rest => RE.seq r (reCat rest)

/-- Alternation `(?:a|b|...)` of a list of patterns. -/
def reAlts : List RE → RE
  | [] => RE.eps
  | [r] => r
  | r :: rest => RE.alt r (reAlts rest)

/-- Optional pattern `a?`. -/
def reOpt (r : RE) : RE := RE.alt r RE.eps

/-- One-or-more pattern `a+`. -/
def rePlus (r : RE) : RE := RE.seq r (RE.star r)

/-- Whitespace run `\s+`. -/
def wsPlus : RE := rePlus (RE.cls isWsChar)

/-- Digit run `\d+`. -/
def digitPlus : RE := rePlus (RE.cls isDigitChar)

/-- Dot-star `.*` (dot does not match a newline). -/
def dotStar : RE := RE.star (RE.cls (fun c => c ≠ '\n'))

/-- Pattern `scrape?\s+(?:the\s+)?(?:website|page|url|site)`. -/
def p_scrape_1 : RE :=
  reCat [lit "scrap", reOpt (lit "e"), wsPlus, reOpt (reCat [lit "the", wsPlus]),
    reAlts [lit "website", lit "page", lit "url", lit "site"]]

/-- Pattern `get\s+content\s+from`. -/
def p_scrape_2 : RE :=
  reCat [lit "get", wsPlus, lit "content", wsPlus, lit "from"]

/-- Pattern `extract\s+(?:data|content|text)\s+from\s+(?:website|url|page)`. -/
def p_scrape_3 : RE :=
  reCat [lit "extract", wsPlus, reAlts [lit "data", lit "content", lit "text"], wsPlus,
    lit "from", wsPlus, reAlts [lit "website", lit "url", lit "page"]]

/-- Pattern `fetch\s+(?:data|content)\s+from`. -/
def p_scrape_4 : RE :=
  reCat [lit "fetch", wsPlus, reAlts [lit "data", lit "content"], wsPlus, lit "from"]

/-- Pattern `crawl\s+(?:the\s+)?(?:website|site)`. -/
def p_crawl_1 : RE :=
  reCat [lit "crawl", wsPlus, reOpt (reCat [lit "the", wsPlus]),
    reAlts [lit "website", lit "site"]]

/-- Pattern `get\s+multiple\s+pages`. -/
def p_crawl_2 : RE :=
  reCat [lit "get", wsPlus, lit "multiple", wsPlus, lit "pages"]

/-- Pattern `crawl\s+\d+\s+pages`. -/
def p_crawl_3 : RE :=
  reCat [lit "crawl", wsPlus, digitPlus, wsPlus, lit "pages"]

/-- Pattern `crawl.*limit.*\d+`. -/
def p_crawl_4 : RE :=
  reCat [lit "crawl", dotStar, lit "limit", dotStar, digitPlus]

/-- Pattern `spider\s+(?:the\s+)?website`. -/
def p_crawl_5 : RE :=
  reCat [lit "spider", wsPlus, reOpt (reCat [lit "the", wsPlus]), lit "website"]

/-- Pattern `search\s+(?:for\s+)?(?:websites?|web|internet)`. -/
def p_search_1 : RE :=
  reCat [lit "search", wsPlus, reOpt (reCat [lit "for", wsPlus]),
    reAlts [reCat [lit "website", reOpt (lit "s")], lit "web", lit "internet"]]

/-- Pattern `find\s+(?:websites?|pages?)\s+(?:about|with|containing)`. -/
def p_search_2 : RE :=
  reCat [lit "find", wsPlus,
    reAlts [reCat [lit "website", reOpt (lit "s")], reCat [lit "page", reOpt (lit "s")]],
    wsPlus, reAlts [lit "about", lit "with", lit "containing"]]

/-- Pattern `search\s+(?:the\s+)?(?:web|internet)\s+for`. -/
def p_search_3 : RE :=
  reCat [lit "search", wsPlus, reOpt (reCat [lit "the", wsPlus]),
    reAlts [lit "web", lit "internet"], wsPlus, lit "for"]

/-- Pattern `web\s+search`. -/
def p_search_4 : RE :=
  reCat [lit "web", wsPlus, lit "search"]

/-- Pattern `(?:map|find|get|list)\s+(?:all\s+)?links`. -/
def p_map_1 : RE :=
  reCat [reAlts [lit "map", lit "find", lit "get", lit "list"], wsPlus,
    reOpt (reCat [lit "all", wsPlus]), lit "links"]

/-- Pattern `discover\s+links`. -/
def p_map_2 : RE :=
  reCat [lit "discover", wsPlus, lit "links"]

/-- Pattern `find\s+(?:all\s+)?(?:urls?|links)\s+(?:on|from)`. -/
def p_map_3 : RE :=
  reCat [lit "find", wsPlus, reOpt (reCat [lit "all", wsPlus]),
    reAlts [reCat [lit "url", reOpt (lit "s")], lit "links"], wsPlus,
    reAlts [lit "on", lit "from"]]

/-- Pattern `map\s+(?:the\s+)?(?:website|site)\s+structure`. -/
def p_map_4 : RE :=
  reCat [lit "map", wsPlus, reOpt (reCat [lit "the", wsPlus]),
    reAlts [lit "website", lit "site"], wsPlus, lit "structure"]

/-- Pattern `extract\s+(?:structured\s+)?(?:data|content|information)`. -/
def p_extract_1 : RE :=
  reCat [lit "extract", wsPlus, reOpt (reCat [lit "structured", wsPlus]),
    reAlts [lit "data", lit "content", lit "information"]]

/-- Pattern `get\s+specific\s+(?:data|information)`. -/
def p_extract_2 : RE :=
  reCat [lit "get", wsPlus, lit "specific", wsPlus, reAlts [lit "data", lit "information"]]

/-- Pattern `parse\s+(?:data|content)\s+from`. -/
def p_extract_3 : RE :=
  reCat [lit "parse", wsPlus, reAlts [lit "data", lit "content"], wsPlus, lit "from"]

/-- Pattern `extract.*using.*(?:schema|structure|format)`. -/
def p_extract_4 : RE :=
  reCat [lit "extract", dotStar, lit "using", dotStar,
    reAlts [lit "schema", lit "structure", lit "format"]]

/-- Pattern `(?:deep|thorough|comprehensive)\s+(?:analysis|research)`. -/
def p_deep_1 : RE :=
  reCat [reAlts [lit "deep", lit "thorough", lit "comprehensive"], wsPlus,
    reAlts [lit "analysis", lit "research"]]

/-- Pattern `research\s+(?:about|on)`. -/
def p_deep_2 : RE :=
  reCat [lit "research", wsPlus, reAlts [lit "about", lit "on"]]

/-- Pattern `analyze\s+(?:deeply|thoroughly)`. -/
def p_deep_3 : RE :=
  reCat [lit "analyze", wsPlus, reAlts [lit "deeply", lit "thoroughly"]]

/-- Pattern `in-depth\s+(?:analysis|research|study)`. -/
def p_deep_4 : RE :=
  reCat [lit "in-depth", wsPlus, reAlts [lit "analysis", lit "research", lit "study"]]

/-- The agent's `self.tool_patterns` dictionary, in insertion (iteration)
order, from `FirecrawlAgent.__init__`. -/
def tool_patterns : List (String × List RE) :=
  [("scrape_website", [p_scrape_1, p_scrape_2, p_scrape_3, p_scrape_4]),
   ("crawl_website", [p_crawl_1, p_crawl_2, p_crawl_3, p_crawl_4, p_crawl_5]),
   ("search_website", [p_search_1, p_search_2, p_search_3, p_search_4]),
   ("map_links", [p_map_1, p_map_2, p_map_3, p_map_4]),
   ("extract_content", [p_extract_1, p_extract_2, p_extract_3, p_extract_4]),
   ("deep_analysis", [p_deep_1, p_deep_2, p_deep_3, p_deep_4])]

/-- The catalog loop of `identify_tool`: first tool, in catalog order, one of
whose patterns matches the lower-cased input. -/
def catalogFirstMatch (lower : List Char) : Option String :=
  tool_patterns.findSome? (fun pr =>
    if pr.2.any (fun p => reSearch p lower) then some pr.1 else none)

/-- Python substring containment and `str.find`: index of the first
occurrence of `sub` in `s`, if any. -/
def pyFindGo (sub : List Char) : List Char → Option Nat
  | [] => if sub.isEmpty then some 0 else none
  | s@(_ :: rest) =>
      if sub.isPrefixOf s then some 0
      else (pyFindGo sub rest).map (· + 1)

/-- Python `sub in s`. -/
def pyIn (sub s : List Char) : Bool :=
  (pyFindGo sub s).isSome

/-- The URL-ish keywords of the fallback in `identify_tool`:
`['http', 'www', '.com', '.org', '.net']`. -/
def url_kw (lower : List Char) : Bool :=
  ["http", "www", ".com", ".org", ".net"].any (fun k => pyIn k.data lower)

/-- The crawl keywords of the fallback in `identify_tool`:
`['crawl', 'multiple', 'pages', 'limit']`. -/
def crawl_kw (lower : List Char) : Bool :=
  ["crawl", "multiple", "pages", "limit"].any (fun k => pyIn k.data lower)

/-- The link keywords of the fallback in `identify_tool`:
`['links', 'map', 'discover']`. -/
def link_kw (lower : List Char) : Bool :=
  ["links", "map", "discover"].any (fun k => pyIn k.data lower)

/-- The search keywords of the fallback in `identify_tool`:
`['search', 'find']`. -/
def search_kw (lower : List Char) : Bool :=
  ["search", "find"].any (fun k => pyIn k.data lower)

/-- Embeds `FirecrawlAgent.identify_tool`: the pattern-catalog loop followed
by the keyword fallback heuristics, on the lower-cased input. -/
def identify_tool (user_input : String) : Option String :=
  match catalogFirstMatch (pyLower user_input) with
  | some name => some name
  | none =>
      if url_kw (pyLower user_input) then
        if crawl_kw (pyLower user_input) then some "crawl_website"
        else if link_kw (pyLower user_input) then some "map_links"
        else some "scrape_website"
      else if search_kw (pyLower user_input) then some "search_website"
      else none

/-- Python `str.strip()` (ASCII whitespace). -/
def pyStrip (s : String) : String :=
  String.mk (((s.data.dropWhile isWsChar).reverse.dropWhile isWsChar).reverse)

/-- Characters allowed in the body of a URL by the extraction pattern:
the negated class excludes whitespace and the characters
angle brackets, double quote, braces, pipe, backslash, caret, backquote
and square brackets. -/
def url_body_char (c : Char) : Bool :=
  !(isWsChar c || c = '<' || c = '>' || c = '"' || c = Char.ofNat 123 ||
    c = Char.ofNat 125 || c = '|' || c = '\\' || c = '^' || c = Char.ofNat 96 ||
    c = '[' || c = ']')

/-- Attempt to match a URL at the current position: scheme prefix followed by
a nonempty run of URL body characters.  Returns the matched text and the
remainder of the input. -/
def urlAt (s : List Char) : Option (List Char × List Char) :=
  match (if ("http://".data).isPrefixOf s then some 7
         else if ("https://".data).isPrefixOf s then some 8
         else none) with
  | none => none
  | some n =>
      let body := (s.drop n).takeWhile url_body_char
      if body.isEmpty then none
      else some (s.take n ++ body, s.drop (n + body.length))

/-- `re.findall` for the URL pattern: leftmost non-overlapping matches, on
the original-case input.  `fuel` bounds the scan; the wrapper supplies
`length + 1`, ample since every step consumes at least one character. -/
def findUrlsGo : Nat → List Char → List String
  | 0, _ => []
  | _ + 1, [] => []
  | fuel + 1, s@(_ :: rest) =>
      match urlAt s with
      | some (u, r) => String.mk u :: findUrlsGo fuel r
      | none => findUrlsGo fuel rest

/-- The `urls` list of `extract_parameters`: `re.findall` of the URL
pattern (scheme `https?://` followed by a nonempty run of URL body
characters) over the original-case input. -/
def findUrls (s : String) : List String :=
  findUrlsGo (s.data.length + 1) s.data

/-- The alternatives of the limit pattern
`(?:limit|max|maximum|up to)\s*(\d+)`, in the pattern's order. -/
def limit_kws : List (List Char) :=
  ["limit".data, "max".data, "maximum".data, "up to".data]

/-- The alternatives of the depth pattern `(?:depth|levels?)\s*(\d+)`;
`levels?` expands, in greedy backtracking order, to `levels` then `level`. -/
def depth_kws : List (List Char) :=
  ["depth".data, "levels".data, "level".data]

/-- One position of a `(?:kw1|...|kwn)\s*(\d+)` search: try each keyword
alternative in order, then skip whitespace and capture a nonempty digit run.
This is Python's per-position backtracking for these patterns (giving back
whitespace cannot help, since the digits class is disjoint from `\s`). -/
def kwNumAt (kws : List (List Char)) (s : List Char) : Option Nat :=
  kws.findSome? (fun kw =>
    if kw.isPrefixOf s then
      let r := (s.drop kw.length).dropWhile isWsChar
      let ds := r.takeWhile isDigitChar
      if ds.isEmpty then none else some (natOfDigits ds)
    else none)

/-- Leftmost match of `(?:kw1|...|kwn)\s*(\d+)`: the captured integer. -/
def kwNumSearch (kws : List (List Char)) : List Char → Option Nat
  | [] => none
  | s@(_ :: rest) =>
      match kwNumAt kws s with
      | some n => some n
      | none => kwNumSearch kws rest

/-- The unit alternatives of `\b(\d+)\s*(?:pages?|links?|results?)`; a prefix
match of the stem suffices since nothing follows the group. -/
def unit_kws : List (List Char) :=
  ["page".data, "link".data, "result".data]

/-- Scan for `\b(\d+)\s*(?:pages?|links?|results?)`: the boundary flag says
whether the previous character was a non-word character (or start). -/
def numUnitGo : Bool → List Char → Option Nat
  | _, [] => none
  | bnd, c :: rest =>
      match (if bnd && isDigitChar c then
               let ds := (c :: rest).takeWhile isDigitChar
               let r := ((c :: rest).drop ds.length).dropWhile isWsChar
               if unit_kws.any (fun u => u.isPrefixOf r) then some (natOfDigits ds)
               else none
             else none) with
      | some n => some n
      | none => numUnitGo (!(isWordChar c)) rest

/-- Leftmost match of `\b(\d+)\s*(?:pages?|links?|results?)`: the captured
integer (the standalone-number limit heuristic of the crawl branch). -/
def numUnitSearch (s : List Char) : Option Nat :=
  numUnitGo true s

/-- The keyword alternatives of the time pattern
`(?:time|timeout|limit)\s*(\d+)\s*(?:seconds?|minutes?)`, in order. -/
def time_kws : List (List Char) :=
  ["time".data, "timeout".data, "limit".data]

/-- One position of the time-limit search: keyword, whitespace, digits,
whitespace, then a `second`/`minute` stem.  Returns the captured integer and
whether the unit alternative matched was the minute form. -/
def timeAt (s : List Char) : Option (Nat × Bool) :=
  time_kws.findSome? (fun kw =>
    if kw.isPrefixOf s then
      let r := (s.drop kw.length).dropWhile isWsChar
      let ds := r.takeWhile isDigitChar
      if ds.isEmpty then none
      else
        let r2 := (r.drop ds.length).dropWhile isWsChar
        if ("second".data).isPrefixOf r2 then some (natOfDigits ds, false)
        else if ("minute".data).isPrefixOf r2 then some (natOfDigits ds, true)
        else none
    else none)

/-- Leftmost match of the time pattern, with the unit that matched. -/
def timeSearch : List Char → Option (Nat × Bool)
  | [] => none
  | s@(_ :: rest) =>
      match timeAt s with
      | some p => some p
      | none => timeSearch rest

/-- `re.search(r'(?:time|timeout|limit)\s*(\d+)\s*(?:seconds?|minutes?)')`:
the captured integer (the source discards which unit matched). -/
def findTime (s : List Char) : Option Nat :=
  (timeSearch s).map (fun p => p.1)

/-- Stop characters of the filter-capture class `[^,.\n]`. -/
def about_stop (c : Char) : Bool :=
  c = ',' || c = '.' || c = '\n'

/-- One position of `re.search(r'about\s+([^,.\n]+)')`: after the literal,
a nonempty whitespace run, then a nonempty capture.  Python's greedy `\s+`
backtracks into the capture (whitespace other than newline is in the class),
so shorter whitespace consumptions are tried in decreasing order. -/
def aboutAt (s : List Char) : Option (List Char) :=
  if ("about".data).isPrefixOf s then
    let rest := s.drop 5
    let w := rest.takeWhile isWsChar
    let r := rest.drop w.length
    if w.isEmpty then none
    else
      (List.range w.length).findSome? (fun i =>
        match (w.drop (w.length - i) ++ r).takeWhile (fun c => !(about_stop c)) with
        | [] => none
        | cap => some cap)
  else none

/-- Leftmost match of `about\s+([^,.\n]+)`: the captured group. -/
def aboutSearch : List Char → Option (List Char)
  | [] => none
  | s@(_ :: rest) =>
      match aboutAt s with
      | some cap => some cap
      | none => aboutSearch rest

/-- Case-insensitive literal prefix match (the phrase is lower-case). -/
def ciPrefixAt : List Char → List Char → Bool
  | [], _ => true
  | _ :: _, [] => false
  | p :: pr, c :: cr => (c.toLower = p) && ciPrefixAt pr cr

/-- Word-boundary assertion after a match: end of input or a non-word
character. -/
def wordBoundaryAfter : List Char → Bool
  | [] => true
  | c :: _ => !(isWordChar c)

/-- `re.sub(rf'\b{phrase}\b', '', s, flags=re.IGNORECASE)`: remove every
non-overlapping occurrence of the phrase delimited by word boundaries.
`prev` is the character before the current position; after a removal it is
the last character of the matched text (whose word-ness equals that of the
phrase's last character).  `fuel` bounds the scan; the wrapper supplies
`length + 1`, ample since every step consumes at least one character. -/
def subWordGo (ph : List Char) : Nat → Option Char → List Char → List Char
  | 0, _, s => s
  | _ + 1, _, [] => []
  | fuel + 1, prev, s@(c :: rest) =>
      if (match prev with | none => true | some p => !(isWordChar p)) &&
         !ph.isEmpty && ciPrefixAt ph s && wordBoundaryAfter (s.drop ph.length) then
        subWordGo ph fuel (some (ph.getLastD ' ')) (s.drop ph.length)
      else c :: subWordGo ph fuel (some c) rest

/-- Word-boundary, case-insensitive removal of a literal phrase. -/
def re_sub_word (phrase : String) (s : String) : String :=
  String.mk (subWordGo phrase.data (s.data.length + 1) none s.data)

/-- The command phrases stripped from a web-search query, in loop order:
`['search for', 'find', 'look for', 'search']`. -/
def command_phrases : List String :=
  ["search for", "find", "look for", "search"]

/-- The query-stripping loop of the `search_website` branch. -/
def strip_command_phrases (s : String) : String :=
  command_phrases.foldl (fun q ph => re_sub_word ph q) s

/-- The prompt indicators of the `extract_content` branch, in loop order. -/
def prompt_indicators : List (List Char) :=
  ["extract".data, "get".data, "find".data, "pull out".data]

/-- First indicator (in list order) present in the lower-cased text: the
index of its first occurrence (`user_input_lower.find(indicator)`). -/
def firstIndicatorIdx (inds : List (List Char)) (lower : List Char) : Option Nat :=
  inds.findSome? (fun ind => pyFindGo ind lower)

/-- The query indicators of the `deep_analysis` branch, in loop order. -/
def query_indicators : List (List Char) :=
  ["research".data, "analyze".data, "analysis of".data, "study".data]

/-- First indicator (in list order) present in the lower-cased text: the
index just past its first occurrence (`find(indicator) + len(indicator)`). -/
def firstIndicatorEnd (inds : List (List Char)) (lower : List Char) : Option Nat :=
  inds.findSome? (fun ind => (pyFindGo ind lower).map (· + ind.length))

/-- A Python value stored in the extracted parameter dictionary.  The
integers of this program all arise from digit captures, hence `Nat`. -/
inductive Value where
  | str (s : String) : Value
  | int (n : Nat) : Value
  | bool (b : Bool) : Value
  | list (l : List String) : Value
deriving DecidableEq, Repr

/-- The parameter dictionary built by `extract_parameters` (each branch
assigns each key at most once, so an association list is faithful). -/
abbrev Params := List (String × Value)

/-- Dictionary lookup. -/
def lookupP (ps : Params) (k : String) : Option Value :=
  match ps with
  | [] => none
  | (k2, v) :: rest => if k2 = k then some v else lookupP rest k

/-- Embeds `FirecrawlAgent.extract_parameters`: per-tool parameter capture
from the raw text (URLs from the original-case text, everything else from
the lower-cased text), in the source's assignment order. -/
def extract_parameters (user_input : String) (tool_name : String) : Params :=
  let lower := (pyLower user_input)
  let urls := findUrls user_input
  if tool_name = "scrape_website" then
    (match urls with | [] => [] | u :: _ => [("url", Value.str u)])
    ++ (if pyIn "html".data lower then [("formats", Value.list ["html"])]
        else if pyIn "json".data lower then [("formats", Value.list ["json"])]
        else if pyIn "markdown".data lower || pyIn "md".data lower then
          [("formats", Value.list ["markdown"])]
        else [])
    ++ (if pyIn "main content".data lower || pyIn "only content".data lower ||
           pyIn "no navigation".data lower then
          [("onlyMainContent", Value.bool true)]
        else [])
  else if tool_name = "crawl_website" then
    (match urls with | [] => [] | u :: _ => [("url", Value.str u)])
    ++ [("limit", Value.int
          (match kwNumSearch limit_kws lower with
           | some n => n
           | none =>
               match numUnitSearch lower with
               | some n => n
               | none => 10))]
  else if tool_name = "search_website" then
    [("query", Value.str (pyStrip (strip_command_phrases user_input)))]
    ++ [("limit", Value.int
          (match kwNumSearch limit_kws lower with
           | some n => n
           | none => 10))]
  else if tool_name = "map_links" then
    (match urls with | [] => [] | u :: _ => [("url", Value.str u)])
    ++ [("search", Value.str
          (if pyIn "about".data lower then
             match aboutSearch lower with
             | some cap => pyStrip (String.mk cap)
             | none => ""
           else ""))]
    ++ [("limit", Value.int
          (match kwNumSearch limit_kws lower with
           | some n => n
           | none => 20))]
  else if tool_name = "extract_content" then
    [("urls", Value.list urls)]
    ++ [("prompt", Value.str
          (match firstIndicatorIdx prompt_indicators lower with
           | some idx => String.mk (user_input.data.drop idx)
           | none => user_input))]
  else if tool_name = "deep_analysis" then
    [("query", Value.str
        (match firstIndicatorEnd query_indicators lower with
         | some idx => pyStrip (String.mk (user_input.data.drop idx))
         | none => user_input))]
    ++ (match kwNumSearch depth_kws lower with
        | some n => [("max_depth", Value.int n)]
        | none => [])
    ++ (match findTime lower with
        | some n =>
            [("time_limit", Value.int (if pyIn "minute".data lower then n * 60 else n))]
        | none => [])
  else []

/-- The `required_params` table of `FirecrawlAgent._validate_parameters`. -/
def required_params : List (String × List String) :=
  [("scrape_website", ["url"]),
   ("crawl_website", ["url", "limit"]),
   ("search_website", ["query", "limit"]),
   ("map_links", ["url", "limit", "search"]),
   ("extract_content", ["urls", "prompt"]),
   ("deep_analysis", ["query"])]

/-- Lookup in the `required_params` table. -/
def lookupReq (tool_name : String) : Option (List String) :=
  required_params.findSome? (fun kv => if kv.1 = tool_name then some kv.2 else none)

/-- Python truthiness of a parameter value (`not params[param]` negated):
empty string, zero, `False` and the empty list are falsy. -/
def truthy : Value → Bool
  | Value.str s => !(s == "")
  | Value.int n => !(n == 0)
  | Value.bool b => b
  | Value.list l => !l.isEmpty

/-- Embeds `FirecrawlAgent._validate_parameters`: false for an unknown tool,
otherwise every required argument must be present and truthy. -/
def validate_parameters (tool_name : String) (params : Params) : Bool :=
  match lookupReq tool_name with
  | none => false
  | some reqs =>
      reqs.all (fun p =>
        match lookupP params p with
        | some v => truthy v
        | none => false)

/-- A minimal JSON string escape (backslash, double quote and the common
control characters), as used by `json.dumps` on the error messages. -/
def jsonEscape (s : String) : String :=
  String.mk (s.data.flatMap (fun c =>
    if c = '\\' then ['\\', '\\']
    else if c = '"' then ['\\', '"']
    else if c = '\n' then ['\\', 'n']
    else if c = '\t' then ['\\', 't']
    else if c = '\x0d' then ['\\', 'r']
    else [c]))

/-- A JSON string literal. -/
def jsonString (s : String) : String :=
  "\"" ++ jsonEscape s ++ "\""

/-- `json.dumps({"error": str(e)}, indent=2)`: the structured error payload
every tool wrapper returns when the remote call raises. -/
def json_dumps_error (e : String) : String :=
  "\x7b\n  \"error\": " ++ jsonString e ++ "\n\x7d"

/-- Embeds `scrape_website` from `firecrawl_fapi.py`.  The remote call
`app.scrape_url` together with the rendering of its payload is modelled by
the oracle argument: `ok` carries the rendered result, `error` the message
of the exception the call raised. -/
def scrape_website (remote : Except String String) : String :=
  match remote with
  | Except.ok scrap => scrap
  | Except.error e => json_dumps_error e

/-- Embeds `crawl_website` from `firecrawl_fapi.py` (remote call
`app.crawl_url` modelled by the oracle). -/
def crawl_website (remote : Except String String) : String :=
  match remote with
  | Except.ok crawl => crawl
  | Except.error e => json_dumps_error e

/-- Embeds `search_website` from `firecrawl_fapi.py` (remote call
`app.search` modelled by the oracle). -/
def search_website (remote : Except String String) : String :=
  match remote with
  | Except.ok result => result
  | Except.error e => json_dumps_error e

/-- Embeds `map_links` from `firecrawl_fapi.py` (remote call `app.map_url`
modelled by the oracle). -/
def map_links (remote : Except String String) : String :=
  match remote with
  | Except.ok result => result
  | Except.error e => json_dumps_error e

/-- Embeds `extract_content` from `firecrawl_fapi.py` (remote call
`app.extract` modelled by the oracle). -/
def extract_content (remote : Except String String) : String :=
  match remote with
  | Except.ok result => result
  | Except.error e => json_dumps_error e

/-- Embeds `deep_analysis` from `firecrawl_fapi.py` (remote call
`app.deep_research` modelled by the oracle). -/
def deep_analysis (remote : Except String String) : String :=
  match remote with
  | Except.ok result => result
  | Except.error e => json_dumps_error e

/-- Rendering of a parameter value by `json.dumps`. -/
def dumpValue : Value → String
  | Value.str s => jsonString s
  | Value.int n => toString n
  | Value.bool b => if b then "true" else "false"
  | Value.list l => "[" ++ String.intercalate ", " (l.map jsonString) ++ "]"

/-- `json.dumps(params, indent=2)` for the extracted parameter dictionary. -/
def dumpParams (ps : Params) : String :=
  "\x7b\n" ++
    String.intercalate ",\n"
      (ps.map (fun kv => "  " ++ jsonString kv.1 ++ ": " ++ dumpValue kv.2)) ++
  "\n\x7d"

/-- The `try` body of `FirecrawlAgent.process_request`.  Python exceptions
are modelled by `Except.error`.  `toolRun` models `selected_tool._run`
(the tool functions catch remote failures internally, but `_run` may still
raise, e.g. on argument binding); `agentRun` models `self.agent.run`, the
free-form fallback; `hasTool` models membership of a name in `self.tools`
(that list comes from `get_firecrawl_tools`, a module not present in the
repository, so it is a parameter). -/
def process_body (toolRun : String → Params → Except String String)
    (agentRun : String → Except String String) (hasTool : String → Bool)
    (user_input : String) : Except String String :=
  match identify_tool user_input with
  | some tool_name =>
      let params := extract_parameters user_input tool_name
      if hasTool tool_name then
        if validate_parameters tool_name params then
          match toolRun tool_name params with
          | Except.ok result =>
              Except.ok ("Tool: " ++ tool_name ++ "\nParameters: " ++ dumpParams params ++
                "\nResult: " ++ result)
          | Except.error e => Except.error e
        else agentRun user_input
      else Except.ok ("Tool '" ++ tool_name ++ "' not found. Available tools: ")
  | none => agentRun user_input

/-- Embeds `FirecrawlAgent.process_request`: the `try` body with the
top-level `except Exception` handler that renders any escaped exception as
an error string. -/
def process_request (toolRun : String → Params → Except String String)
    (agentRun : String → Except String String) (hasTool : String → Bool)
    (user_input : String) : String :=
  match process_body toolRun agentRun hasTool user_input with
  | Except.ok s => s
  | Except.error e => "Error processing request: " ++ e

/-- One selection-plus-extraction pass over a request text. -/
def select_and_extract (t : String) : Option (String × Params) :=
  (identify_tool t).map (fun name => (name, extract_parameters t name))

/-- Two consecutive selection-plus-extraction passes over the same text
(the source functions read only the immutable pattern catalog, so the
embedding is a pure function of the text). -/
def run_twice (t : String) : Option (String × Params) × Option (String × Params) :=
  (select_and_extract t, select_and_extract t)

/-- Modelled from the spec (claim C1's wording): the Tool Selector first
consults the Pattern Catalog in catalog-declared order, then applies the
fallback heuristics in the fixed priority (a) URL-like and crawl keywords,
(b) URL-like and link keywords, (c) URL-like alone, (d) search keywords,
(e) none. -/
def identify_tool_spec (user_input : String) : Option String :=
  match catalogFirstMatch (pyLower user_input) with
  | some name => some name
  | none =>
      if url_kw (pyLower user_input) && crawl_kw (pyLower user_input) then
        some "crawl_website"
      else if url_kw (pyLower user_input) && link_kw (pyLower user_input) then
        some "map_links"
      else if url_kw (pyLower user_input) then some "scrape_website"
      else if search_kw (pyLower user_input) then some "search_website"
      else none

/-- Modelled from the spec (claim C3's wording): the three-step limit
scheme — keyword-number pattern, else standalone number with a unit, else
the documented default. -/
def limit_scheme_spec (lower : List Char) (dflt : Nat) : Nat :=
  match kwNumSearch limit_kws lower with
  | some n => n
  | none =>
      match numUnitSearch lower with
      | some n => n
      | none => dflt

/-- Modelled from the spec (claim C6's wording): the time limit is the
captured integer, multiplied by 60 exactly when the unit token matched in
the time phrase is a minute form. -/
def time_limit_spec (lower : List Char) : Option Nat :=
  (timeSearch lower).map (fun p => if p.2 then p.1 * 60 else p.1)

/-- Modelled from the spec (claim C7's wording): a literal token is present
when it occurs delimited by word boundaries on both sides. -/
def tokenGo (tok : List Char) : Bool → List Char → Bool
  | _, [] => false
  | bnd, s@(c :: rest) =>
      (bnd && tok.isPrefixOf s && wordBoundaryAfter (s.drop tok.length)) ||
      tokenGo tok (!(isWordChar c)) rest

/-- Word-delimited occurrence of a literal token. -/
def token_present (s tok : List Char) : Bool :=
  tokenGo tok true s

theorem lookupP_append (a b : Params) (k : String) :
    lookupP (a ++ b) k = (lookupP a k).orElse (fun _ => lookupP b k) := by
  induction a with
  | nil => rfl
  | cons hd tl ih =>
      by_cases h : hd.1 = k
      · simp [lookupP, h, Option.orElse]
      · simpa [lookupP, h, Option.orElse] using ih

theorem lookupP_url_part (urls : List String) (rest : Params) (k : String)
    (hk : ("url" = k) = False) :
    lookupP ((match urls with | [] => [] | u :: _ => [("url", Value.str u)]) ++ rest) k
      = lookupP rest k := by
  cases urls with
  | nil => rfl
  | cons u us => simp [lookupP, hk]

theorem lookup_truthy_iff (ps : Params) (p : String) :
    (match lookupP ps p with | some v => truthy v | none => false) = true ↔
      ∃ v, lookupP ps p = some v ∧ truthy v = true := by
  cases h : lookupP ps p <;> simp [h]

/-- Claim C9: selection and extraction are deterministic pure functions of
the text and the static catalog; running `identify_tool` followed by
`extract_parameters` twice on the same text yields identical results. -/
theorem C9_select_extract_deterministic (t : String) :
    (run_twice t).1 = (run_twice t).2 := rfl

/-- Claim C1: `identify_tool` first tries the Pattern Catalog in
catalog-declared order, returning the first operation any of whose rules
matches the lower-cased input; when no rule matches it applies the fallback
heuristics in the priority URL-and-crawl-keywords, URL-and-link-keywords,
URL alone, search keywords, otherwise `none`. -/
theorem C1_identify_tool_refines_spec (t : String) :
    identify_tool t = identify_tool_spec t := by
  unfold identify_tool identify_tool_spec
  cases hc : catalogFirstMatch (pyLower t) with
  | some name => rfl
  | none =>
      cases hu : url_kw (pyLower t) <;>
        cases hcr : crawl_kw (pyLower t) <;>
          cases hl : link_kw (pyLower t) <;>
            cases hs : search_kw (pyLower t) <;>
              simp [hu, hcr, hl, hs]

/-- Claim C2 counterexample: an argument set carrying the integer zero for
the required `limit` argument of the crawl operation is rejected by the
validator, contrary to the claim that zero is treated as present and such a
set is dispatchable (Python's truthiness makes `0` falsy). -/
theorem C2_counterexample :
    validate_parameters "crawl_website"
      [("url", Value.str "https://x.com"), ("limit", Value.int 0)] = false := by
  decide

/-- Claim C2 (amended): the validator returns true exactly when the
operation is known and every required argument is present with a truthy
value, where the integer zero is falsy — an argument set with `limit = 0`
therefore fails validation rather than being dispatchable. -/
theorem C2_validator_characterization (tool : String) (ps : Params) :
    (validate_parameters tool ps = true ↔
      ∃ reqs, lookupReq tool = some reqs ∧
        ∀ p ∈ reqs, ∃ v, lookupP ps p = some v ∧ truthy v = true)
    ∧ truthy (Value.int 0) = false := by
  constructor
  · unfold validate_parameters
    cases h : lookupReq tool with
    | none => simp
    | some reqs => simp [List.all_eq_true, lookup_truthy_iff]
  · rfl

/-- Claim C3 counterexample: on `"search the web for rust 5 results"`, the
web-search branch ignores the standalone `<int> results` heuristic and
falls straight back to the default 10, while the claimed three-step scheme
would capture 5 — only the crawl branch implements the standalone step. -/
theorem C3_counterexample :
    lookupP (extract_parameters "search the web for rust 5 results" "search_website")
        "limit" = some (Value.int 10)
    ∧ limit_scheme_spec (pyLower "search the web for rust 5 results") 10 = 5
    ∧ ¬ (lookupP (extract_parameters "search the web for rust 5 results" "search_website")
        "limit"
          = some (Value.int
              (limit_scheme_spec (pyLower "search the web for rust 5 results") 10))) := by
  refine ⟨by decide, by decide, by decide⟩

/-- Claim C3 (amended): the crawl branch derives its limit by the three-step
scheme (keyword pattern, standalone number with unit, default 10); the
web-search and enumerate-links branches use only the keyword pattern before
their defaults (10 and 20) without the standalone-number step; the
fetch-page branch sets no limit. -/
theorem C3_limit_derivation (t : String) :
    lookupP (extract_parameters t "crawl_website") "limit"
        = some (Value.int (limit_scheme_spec (pyLower t) 10))
    ∧ lookupP (extract_parameters t "search_website") "limit"
        = some (Value.int ((kwNumSearch limit_kws (pyLower t)).getD 10))
    ∧ lookupP (extract_parameters t "map_links") "limit"
        = some (Value.int ((kwNumSearch limit_kws (pyLower t)).getD 20))
    ∧ lookupP (extract_parameters t "scrape_website") "limit" = none := by
  refine ⟨?_, ?_, ?_, ?_⟩
  · cases hu : findUrls t <;>
      cases h : kwNumSearch limit_kws (pyLower t) <;>
        simp [extract_parameters, lookupP, limit_scheme_spec, hu, h]
  · cases h : kwNumSearch limit_kws (pyLower t) <;>
      simp [extract_parameters, lookupP, h]
  · cases hu : findUrls t <;>
      cases h : kwNumSearch limit_kws (pyLower t) <;>
        simp [extract_parameters, lookupP, hu, h]
  · cases hu : findUrls t <;>
      simp only [extract_parameters, String.reduceEq, if_true, if_false, hu] <;>
        (repeat' split) <;> simp [lookupP]

/-- Claim C4 counterexample: for `"search for rust async runtimes limit 5"`
the extracted query keeps the trailing limit phrase — it is
`"rust async runtimes limit 5"`, not the claimed `"rust async runtimes"`
(only the command phrases are stripped, not the limit phrase). -/
theorem C4_counterexample :
    lookupP (extract_parameters "search for rust async runtimes limit 5" "search_website")
        "query" = some (Value.str "rust async runtimes limit 5")
    ∧ ¬ (lookupP (extract_parameters "search for rust async runtimes limit 5"
        "search_website") "query" = some (Value.str "rust async runtimes")) := by
  refine ⟨by decide, by decide⟩

/-- Claim C4 (amended): on `"search for rust async runtimes limit 5"` the
selector returns web-search and extraction yields the query
`"rust async runtimes limit 5"` (command phrase stripped, limit phrase
retained) and limit 5; in general the query is the original text with the
literal phrases `search for`, `find`, `look for`, `search` removed
(case-insensitive, word-boundary) and trimmed, and an empty remainder
fails validation rather than being auto-corrected. -/
theorem C4_web_search_query_extraction :
    identify_tool "search for rust async runtimes limit 5" = some "search_website"
    ∧ lookupP (extract_parameters "search for rust async runtimes limit 5"
        "search_website") "query" = some (Value.str "rust async runtimes limit 5")
    ∧ lookupP (extract_parameters "search for rust async runtimes limit 5"
        "search_website") "limit" = some (Value.int 5)
    ∧ (∀ t, lookupP (extract_parameters t "search_website") "query"
        = some (Value.str (pyStrip (strip_command_phrases t))))
    ∧ (∀ t, pyStrip (strip_command_phrases t) = "" →
        validate_parameters "search_website" (extract_parameters t "search_website")
          = false) := by
  have hquery : ∀ t, lookupP (extract_parameters t "search_website") "query"
      = some (Value.str (pyStrip (strip_command_phrases t))) := by
    intro t
    simp [extract_parameters, lookupP]
  refine ⟨by decide, by decide, by decide, hquery, ?_⟩
  intro t h
  have hq := hquery t
  rw [h] at hq
  unfold validate_parameters
  rw [show lookupReq "search_website" = some ["query", "limit"] from rfl]
  simp [List.all, hq, truthy]

/-- Claim C4 witness: the bare command `"search"` strips to the empty query
and fails validation. -/
theorem C4_witness :
    pyStrip (strip_command_phrases "search") = ""
    ∧ validate_parameters "search_website" (extract_parameters "search" "search_website")
        = false :=
  ⟨by decide, C4_web_search_query_extraction.2.2.2.2 "search" (by decide)⟩

/-- Claim C5 counterexample: `"deep analysis of https://example.com"`
contains an https URL and none of the crawl or link keywords, yet the
selector returns deep-research because the Pattern Catalog is consulted
before the URL fallback — the claim holds only when no catalog rule
matches. -/
theorem C5_counterexample :
    pyIn "http".data (pyLower "deep analysis of https://example.com") = true
    ∧ crawl_kw (pyLower "deep analysis of https://example.com") = false
    ∧ link_kw (pyLower "deep analysis of https://example.com") = false
    ∧ identify_tool "deep analysis of https://example.com" = some "deep_analysis"
    ∧ ¬ (identify_tool "deep analysis of https://example.com"
        = some "scrape_website") := by
  refine ⟨by decide, by decide, by decide, by decide, by decide⟩

/-- Claim C5 (amended): for every text on which no Pattern Catalog rule
matches, containing an http URL substring and none of the crawl-intent or
link-intent keywords, `identify_tool` returns fetch-page. -/
theorem C5_url_without_keywords_fetch_page (t : String)
    (hcat : catalogFirstMatch (pyLower t) = none)
    (hurl : pyIn "http".data (pyLower t) = true)
    (hcr : crawl_kw (pyLower t) = false)
    (hl : link_kw (pyLower t) = false) :
    identify_tool t = some "scrape_website" := by
  unfold identify_tool
  rw [hcat]
  have hu : url_kw (pyLower t) = true := by
    simp [url_kw, hurl]
  simp [hu, hcr, hl]

/-- Claim C5 witness: `"visit https://example.com"` matches no catalog rule
and is routed to fetch-page. -/
theorem C5_witness :
    identify_tool "visit https://example.com" = some "scrape_website" :=
  C5_url_without_keywords_fetch_page "visit https://example.com"
    (by decide) (by decide) (by decide) (by decide)

/-- Claim C6 counterexample: in `"research on ai time 30 seconds within a
minute"` the time phrase matches with the second-form unit, so the claimed
rule yields 30; but the code checks for `minute` anywhere in the text and
stores 1800. -/
theorem C6_counterexample :
    lookupP (extract_parameters "research on ai time 30 seconds within a minute"
        "deep_analysis") "time_limit" = some (Value.int 1800)
    ∧ time_limit_spec (pyLower "research on ai time 30 seconds within a minute")
        = some 30
    ∧ ¬ (lookupP (extract_parameters "research on ai time 30 seconds within a minute"
        "deep_analysis") "time_limit" = some (Value.int 30)) := by
  refine ⟨by decide, by decide, by decide⟩

/-- Claim C6 (amended): when the time pattern matches, the stored time limit
is the captured integer multiplied by 60 exactly when the substring
`minute` occurs anywhere in the lower-cased text — not when the matched
unit token is a minute form; with no match no time limit is set. -/
theorem C6_time_limit_global_minute_check (t : String) :
    lookupP (extract_parameters t "deep_analysis") "time_limit"
      = (findTime (pyLower t)).map
          (fun n => Value.int (if pyIn "minute".data (pyLower t) then n * 60 else n)) := by
  cases hd : kwNumSearch depth_kws (pyLower t) <;>
    cases ht2 : findTime (pyLower t) <;>
      simp [extract_parameters, lookupP, hd, ht2]

/-- Claim C7 counterexample: `"scrape the page https://a.com as xhtml"`
contains `html` only inside the longer word `xhtml` (no word-delimited
token), yet the extractor sets format html — detection is by substring,
not by literal token. -/
theorem C7_counterexample :
    token_present (pyLower "scrape the page https://a.com as xhtml") "html".data
        = false
    ∧ lookupP (extract_parameters "scrape the page https://a.com as xhtml"
        "scrape_website") "formats" = some (Value.list ["html"]) := by
  refine ⟨by decide, by decide⟩

/-- Claim C7 (amended): for fetch-page the format is html exactly when
`html` occurs as a substring of the lower-cased text; otherwise json when
`json` occurs; otherwise markdown when `markdown` or `md` occurs; otherwise
no format override is set (occurrences inside longer words count). -/
theorem C7_format_substring_detection (t : String) :
    lookupP (extract_parameters t "scrape_website") "formats"
      = (if pyIn "html".data (pyLower t) then some (Value.list ["html"])
         else if pyIn "json".data (pyLower t) then some (Value.list ["json"])
         else if pyIn "markdown".data (pyLower t) || pyIn "md".data (pyLower t) then
           some (Value.list ["markdown"])
         else none) := by
  cases hu : findUrls t <;>
    simp only [extract_parameters, String.reduceEq, if_true, if_false, hu] <;>
      (repeat' split) <;> simp_all [lookupP]

/-- Claim C8: every tool wrapper converts a failure of the remote call into
the structured payload `json.dumps({"error": message})` instead of
propagating it, and `process_request` catches any exception escaping its
body, so the caller always receives a string. -/
theorem C8_error_containment :
    (∀ e, scrape_website (Except.error e) = json_dumps_error e)
    ∧ (∀ e, crawl_website (Except.error e) = json_dumps_error e)
    ∧ (∀ e, search_website (Except.error e) = json_dumps_error e)
    ∧ (∀ e, map_links (Except.error e) = json_dumps_error e)
    ∧ (∀ e, extract_content (Except.error e) = json_dumps_error e)
    ∧ (∀ e, deep_analysis (Except.error e) = json_dumps_error e)
    ∧ (∀ toolRun agentRun hasTool t e,
        process_body toolRun agentRun hasTool t = Except.error e →
        process_request toolRun agentRun hasTool t
          = "Error processing request: " ++ e) := by
  refine ⟨fun e => rfl, fun e => rfl, fun e => rfl, fun e => rfl, fun e => rfl,
    fun e => rfl, ?_⟩
  intro tr ar ht t e h
  unfold process_request
  rw [h]

/-- Claim C8 witness: a crawl request whose tool run raises is rendered as
the top-level error string. -/
theorem C8_witness :
    process_request (fun _ _ => Except.error "boom") (fun _ => Except.ok "fallback")
      (fun _ => true) "crawl the website https://x.com limit 5"
      = "Error processing request: boom" :=
  C8_error_containment.2.2.2.2.2.2 (fun _ _ => Except.error "boom")
    (fun _ => Except.ok "fallback") (fun _ => true)
    "crawl the website https://x.com limit 5" "boom" rfl

/-- Claim C10: when the text lacks the substring `about`, the
enumerate-links branch sets `search` to the empty string, the validator
rejects the argument set (`search` is required and empty is falsy), and a
request selected as map-links is routed to the free-form fallback instead
of being dispatched. -/
theorem C10_map_links_without_about_never_dispatched (t : String)
    (toolRun : String → Params → Except String String)
    (agentRun : String → Except String String) (hasTool : String → Bool)
    (hab : pyIn "about".data (pyLower t) = false)
    (hid : identify_tool t = some "map_links")
    (hht : hasTool "map_links" = true) :
    lookupP (extract_parameters t "map_links") "search" = some (Value.str "")
    ∧ validate_parameters "map_links" (extract_parameters t "map_links") = false
    ∧ process_request toolRun agentRun hasTool t
        = (match agentRun t with
           | Except.ok s => s
           | Except.error e => "Error processing request: " ++ e) := by
  have hsearch : lookupP (extract_parameters t "map_links") "search"
      = some (Value.str "") := by
    cases hu : findUrls t <;>
      simp [extract_parameters, lookupP, hu, hab]
  have hval : validate_parameters "map_links" (extract_parameters t "map_links")
      = false := by
    unfold validate_parameters
    rw [show lookupReq "map_links" = some ["url", "limit", "search"] from rfl]
    simp [List.all, hsearch, truthy]
  refine ⟨hsearch, hval, ?_⟩
  unfold process_request process_body
  rw [hid]
  simp [hht, hval]

/-- Claim C10 witness: a link-mapping request without `about` falls back to
the free-form agent answer. -/
theorem C10_witness :
    process_request (fun _ _ => Except.error "never")
      (fun _ => Except.ok "fallback answer") (fun _ => true)
      "map links from https://site.io" = "fallback answer" :=
  (C10_map_links_without_about_never_dispatched "map links from https://site.io"
    (fun _ _ => Except.error "never") (fun _ => Except.ok "fallback answer")
    (fun _ => true) (by decide) (by decide) rfl).2.2

end Firecrawl
